import Mathlib

/-
Verification of the chromatica CDP client core against its specification.

This file shallowly embeds the relevant parts of the Rust source
(src/core/cdp/*.rs) as executable Lean definitions and proves or refutes
the specification claims about them.  Machine integers (usize) are
modelled as Nat, JSON values as a small inductive, fallible code as
Option/Except-like outcome types, and async state machines as explicit
state passing.  A constructor named panicked models a Rust panic
(unwrap/explicit) as distinguished from a returned error.
-/

/-! # Wire codec (src/core/cdp/connection.rs) -/

/-- JSON values as carried on the CDP wire (serde_json::Value in the source). -/
inductive JVal : Type where
  | jnull : JVal
  | jbool : Bool → JVal
  | jnum : Int → JVal
  | jstr : String → JVal
  | jarr : List JVal → JVal
  | jobj : List (String × JVal) → JVal

/-- ErrorResponse { code: i32, message: String } (connection.rs). -/
structure ErrorResponse where
  code : Int
  message : String
deriving DecidableEq

/-- Response { id: usize, sessionId?, result? (serde default), error? (serde default) }
(connection.rs lines 32-41).  Both result and error carry serde(default), so a
deserialized Response may have both absent. -/
structure Response where
  id : Nat
  sessionId : Option String
  result : Option JVal
  error : Option ErrorResponse

/-- Outcome of Response::result_as::<T> specialized to T = Value, distinguishing a
returned error from a panic. -/
inductive ExtractOutcome : Type where
  | ok : JVal → ExtractOutcome
  | err : String → ExtractOutcome
  | panicked : ExtractOutcome

/-- Response::result_as (connection.rs lines 44-49): on Some(result) deserializes it
(identity at T = Value); on None it evaluates self.error.unwrap().message, which
panics when error is also None. -/
def Response.resultAs (r : Response) : ExtractOutcome :=
  match r.result with
  | some v => ExtractOutcome.ok v
  | none =>
    match r.error with
    | some e => ExtractOutcome.err e.message
    | none => ExtractOutcome.panicked

/-- Field lookup in a JSON object (serde: first matching key). -/
def jLookup : List (String × JVal) → String → Option JVal
  | [], _ => none
  | (k, v) :: rest, key => if k = key then some v else jLookup rest key

/-- Deserialization of ErrorResponse from JSON (serde derive: both fields required). -/
def parseErrorResponse (j : JVal) : Option ErrorResponse :=
  match j with
  | JVal.jobj fields =>
    match jLookup fields "code", jLookup fields "message" with
    | some (JVal.jnum c), some (JVal.jstr m) => some { code := c, message := m }
    | _, _ => none
  | _ => none

/-- Deserialization of Response from JSON per the serde derive on connection.rs 32-41:
id is required (usize, hence non-negative), sessionId is optional, result defaults to
None when the key is missing (serde default, any Value accepted), error defaults to
None when missing. -/
def parseResponse (j : JVal) : Option Response :=
  match j with
  | JVal.jobj fields =>
    match jLookup fields "id" with
    | some (JVal.jnum (Int.ofNat n)) =>
      let sid? : Option (Option String) :=
        match jLookup fields "sessionId" with
        | none => some none
        | some (JVal.jstr s) => some (some s)
        | some _ => none
      let err? : Option (Option ErrorResponse) :=
        match jLookup fields "error" with
        | none => some none
        | some v =>
          match parseErrorResponse v with
          | some e => some (some e)
          | none => none
      match sid?, err? with
      | some sid, some err =>
        some { id := n, sessionId := sid, result := jLookup fields "result", error := err }
      | _, _ => none
    | _ => none
  | _ => none

/-- Event { method, params, sessionId? } (connection.rs 68-73); params kept opaque
since the subscriber filter only inspects method and sessionId. -/
structure Event where
  method : String
  params : JVal
  sessionId : Option String

/-- Custom Event deserialization (connection.rs 75-151): params and method are
required; sessionId is taken when present and a string (from_value(...).ok()). -/
def parseEvent (j : JVal) : Option Event :=
  match j with
  | JVal.jobj fields =>
    match jLookup fields "params", jLookup fields "method" with
    | some params, some (JVal.jstr m) =>
      let sid : Option String :=
        match jLookup fields "sessionId" with
        | some (JVal.jstr s) => some s
        | _ => none
      some { method := m, params := params, sessionId := sid }
    | _, _ => none
  | _ => none

/-- IncomingMessage (connection.rs 169-174): serde(untagged) tries Response first,
then Event. -/
inductive IncomingMessage : Type where
  | response : Response → IncomingMessage
  | event : Event → IncomingMessage

/-- Untagged deserialization of IncomingMessage: a frame parsing as a Response is a
Response; otherwise it is tried as an Event. -/
def parseIncoming (j : JVal) : Option IncomingMessage :=
  match parseResponse j with
  | some r => some (IncomingMessage.response r)
  | none =>
    match parseEvent j with
    | some e => some (IncomingMessage.event e)
    | none => none

/-! # Event subscriber (src/core/cdp/connection.rs 177-235) -/

/-- EventSubscriber { methods, session_ids, tx }; the sink is abstracted away, the
model returns whether the event passes the filter and is handed to tx. -/
structure EventSubscriber where
  methods : List String
  sessionIds : List String

/-- EventSubscriber::send (connection.rs 204-226): returns early (no delivery) when
the method is not in the method set; when the event carries a sessionId and the
session set is non-empty and does not contain it, returns early; otherwise the
event is sent to the sink.  Events without a sessionId skip the session filter. -/
def EventSubscriber.sendModel (s : EventSubscriber) (e : Event) : Bool :=
  if !(s.methods.contains e.method) then
    false
  else
    match e.sessionId with
    | some sid =>
      if !(s.sessionIds.isEmpty) && !(s.sessionIds.contains sid) then false else true
    | none => true

/-- The delivery condition exactly as the specification words it: method in the
method set AND (session set empty OR the event's sessionId is in the set). -/
def specDelivers (s : EventSubscriber) (e : Event) : Prop :=
  e.method ∈ s.methods ∧
    (s.sessionIds = [] ∨ ∃ sid, e.sessionId = some sid ∧ sid ∈ s.sessionIds)

/-! # Connection::send and the response waiters (src/core/cdp/connection.rs 412-448) -/

/-- Connection state relevant to send: the monotone id counter, the waiters map
(modelled as the list of registered ids), the outbound queue (ids of enqueued
requests in order) and the is_disconnecting flag. -/
structure ConnState where
  nextId : Nat
  waiters : List Nat
  outQueue : List Nat
  disconnecting : Bool

/-- What the awaited oneshot did within the 30 s window: completed with a response,
reported the sender dropped (waiters drained by disconnect), or timed out. -/
inductive WaitOutcome : Type where
  | responded : Response → WaitOutcome
  | dropped : WaitOutcome
  | timedOut : WaitOutcome

/-- The result of Connection::send as seen by the caller. -/
inductive SendResult : Type where
  | ok : Response → SendResult
  | errDisconnecting : SendResult
  | errNoResponse : SendResult
  | errTimedOut : SendResult

/-- The default send timeout: tokio::time::timeout(Duration::from_millis(30000), rx). -/
def sendTimeoutMillis : Nat := 30000

/-- Connection::send (connection.rs 412-448): when is_disconnecting is set, returns
the error at once without allocating an id, registering a waiter or enqueueing.
Otherwise it allocates id := next_id (then increments), registers a waiter under id,
enqueues the serialized request, and awaits the oneshot with the 30 s timeout:
Ok(Ok(response)) yields the response (the receiver removed the waiter when it
delivered); Ok(Err(_)) (sender dropped) yields an error; Err(_) (timeout) removes
the waiter entry and yields an error. -/
def Connection.sendModel (st : ConnState) (outcome : WaitOutcome) : SendResult × ConnState :=
  if st.disconnecting then
    (SendResult.errDisconnecting, st)
  else
    let id := st.nextId
    let st1 : ConnState :=
      { st with nextId := id + 1, waiters := st.waiters ++ [id], outQueue := st.outQueue ++ [id] }
    match outcome with
    | WaitOutcome.responded r =>
      (SendResult.ok r, { st1 with waiters := st1.waiters.filter (fun w => w ≠ id) })
    | WaitOutcome.dropped => (SendResult.errNoResponse, st1)
    | WaitOutcome.timedOut =>
      (SendResult.errTimedOut, { st1 with waiters := st1.waiters.filter (fun w => w ≠ id) })

/-- The receiver task's response handling (connection.rs 370-377): remove the waiter
registered under response.id and deliver to it; when no waiter is registered under
that id the response is silently discarded.  Returns the new waiters list and
whether the response was delivered. -/
def Connection.handleResponse (waiters : List Nat) (r : Response) : List Nat × Bool :=
  if waiters.contains r.id then
    (waiters.filter (fun w => w ≠ r.id), true)
  else
    (waiters, false)

/-- The claim's enumeration of send outcomes: a response, a timeout error, or an
immediate error with the disconnecting flag set at call time. -/
def claimSendOutcome (res : SendResult) : Prop :=
  (∃ r, res = SendResult.ok r) ∨ res = SendResult.errTimedOut ∨
    res = SendResult.errDisconnecting

/-! # FrameInner timeouts (src/core/cdp/frame_inner.rs) -/

/-- FrameInner::new initializes default_timeout to Duration::from_secs(30)
(frame_inner.rs line 68). -/
def FrameInner.defaultTimeoutInitMillis : Nat := 30000

/-- How a wait is bounded: indefinitely, or by a finite number of milliseconds. -/
inductive WaitBound : Type where
  | indefinite : WaitBound
  | bounded : Nat → WaitBound
deriving DecidableEq

/-- Timeout resolution in FrameInner::wait_for_selector (frame_inner.rs 675-740):
let timeout = timeout.or(Some(self.default_timeout())).unwrap(); then
if timeout.is_zero() the join handle is awaited with no timeout, else
tokio::time::timeout(timeout, ...) bounds the wait. -/
def FrameInner.waitForSelectorBound (timeout : Option Nat) (defaultTimeout : Nat) : WaitBound :=
  let t := timeout.getD defaultTimeout
  if t = 0 then WaitBound.indefinite else WaitBound.bounded t

/-- Timeout resolution in FrameInner::wait_for_navigation (frame_inner.rs 352-444):
identical pattern: let timeout = timeout.or(Some(self.default_timeout())).unwrap();
if timeout.is_zero() { rx.await } else { tokio::time::timeout(timeout, rx) }. -/
def FrameInner.waitForNavigationBound (timeout : Option Nat) (defaultTimeout : Nat) : WaitBound :=
  let t := timeout.getD defaultTimeout
  if t = 0 then WaitBound.indefinite else WaitBound.bounded t

/-! # Weak references (frame_inner.rs 80-86, 260-266; element.rs) -/

/-- A weak reference at the moment of access: the referent is alive or dropped. -/
inductive WeakRef (α : Type) : Type where
  | live : α → WeakRef α
  | dangling : WeakRef α

/-- What a handle operation does on access: returns the referent, returns an error
message to the caller, or panics with a message. -/
inductive AccessOutcome (α : Type) : Type where
  | ok : α → AccessOutcome α
  | errMsg : String → AccessOutcome α
  | panicked : String → AccessOutcome α

/-- Minimal Target record (target.rs); the fields the embedded claims need. -/
structure Target where
  targetId : String
  sessionId : String

/-- Minimal FrameInner record as referenced from Element handles. -/
structure FrameInnerRef where
  frameId : String

/-- FrameInner::target (frame_inner.rs 80-86): upgrades the weak target reference
and panics with "Target is dropped" when the target has been dropped.  Every
FrameInner operation reaches its target and session through this accessor. -/
def FrameInner.targetAccess (w : WeakRef Target) : AccessOutcome Target :=
  match w with
  | WeakRef.live t => AccessOutcome.ok t
  | WeakRef.dangling => AccessOutcome.panicked "Target is dropped"

/-- FrameInner::backend_node_id (frame_inner.rs 260-266): panics with
"Backend node id is not set" when the stored Option is None. -/
def FrameInner.backendNodeIdAccess (stored : Option Nat) : AccessOutcome Nat :=
  match stored with
  | some b => AccessOutcome.ok b
  | none => AccessOutcome.panicked "Backend node id is not set"

/-- Element::frame_inner upgrade (element.rs): a dangling weak FrameInner reference
is reported as an error returned to the caller. -/
def Element.frameInnerAccess (w : WeakRef FrameInnerRef) : AccessOutcome FrameInnerRef :=
  match w with
  | WeakRef.live f => AccessOutcome.ok f
  | WeakRef.dangling => AccessOutcome.errMsg "Frame inner is not available"

/-! # Network manager (src/core/cdp/network_manager.rs, http_request.rs, http_response.rs) -/

/-- Credentials { username, password } (network_manager.rs 17-21). -/
structure Credentials where
  username : String
  password : String
deriving DecidableEq

/-- The auth decision carried in Fetch.continueWithAuth's authChallengeResponse. -/
inductive AuthDecision : Type where
  | provideCredentials : Credentials → AuthDecision
  | cancelAuth : AuthDecision
deriving DecidableEq

/-- A CDP Fetch-domain call issued by the network layer. -/
inductive FetchAction : Type where
  | continueWithAuth : String → AuthDecision → FetchAction
  | continueRequest : String → FetchAction
  | failRequest : String → FetchAction
deriving DecidableEq

/-- The fields of HttpRequest (http_request.rs 12-24) the modelled paths read. -/
structure HttpRequestModel where
  protocolMethod : String
  requestId : String
  credentials : Option Credentials

/-- Outcome of running a fallible network operation that can also panic. -/
inductive RunOutcome (α : Type) : Type where
  | ok : α → RunOutcome α
  | errMsg : String → RunOutcome α
  | panicked : RunOutcome α

/-- HttpRequest::continue_request (http_request.rs 94-115): for protocol method
"Fetch.authRequired" it evaluates self.credentials.as_ref().unwrap() — a panic when
no credentials are stored — and sends Fetch.continueWithAuth with
ProvideCredentials; otherwise it sends Fetch.continueRequest. -/
def HttpRequest.continueRequestModel (r : HttpRequestModel) : RunOutcome FetchAction :=
  if r.protocolMethod == "Fetch.authRequired" then
    match r.credentials with
    | some c =>
      RunOutcome.ok (FetchAction.continueWithAuth r.requestId (AuthDecision.provideCredentials c))
    | none => RunOutcome.panicked
  else
    RunOutcome.ok (FetchAction.continueRequest r.requestId)

/-- HttpRequest::abort (http_request.rs 77-92): for "Fetch.authRequired" sends
Fetch.continueWithAuth with CancelAuth, otherwise Fetch.failRequest. -/
def HttpRequest.abortModel (r : HttpRequestModel) : FetchAction :=
  if r.protocolMethod == "Fetch.authRequired" then
    FetchAction.continueWithAuth r.requestId AuthDecision.cancelAuth
  else
    FetchAction.failRequest r.requestId

/-- Result of a network-manager event handler: an early error return (session id
not registered), a panic inside the handler, or a normal completion recording the
Fetch calls issued and whether the built request/response was sent to the
broadcast channel. -/
inductive HandlerResult : Type where
  | errSession : HandlerResult
  | panicked : HandlerResult
  | handled : List FetchAction → Bool → HandlerResult
deriving DecidableEq

/-- NetworkManager::on_auth_required (network_manager.rs 312-350): errors out when
the event's session id is not registered; builds an HttpRequest with protocol
method "Fetch.authRequired" and the stored credentials; when the interception flag
(network_handler) is false it calls continue_request (errors swallowed, panics
propagate) and then always sends the request to the request broadcast. -/
def NetworkManager.onAuthRequired (sessionRegistered : Bool) (interception : Bool)
    (storedCredentials : Option Credentials) (requestId : String) : HandlerResult :=
  if !sessionRegistered then
    HandlerResult.errSession
  else
    let request : HttpRequestModel :=
      { protocolMethod := "Fetch.authRequired", requestId := requestId,
        credentials := storedCredentials }
    if !interception then
      match HttpRequest.continueRequestModel request with
      | RunOutcome.ok act => HandlerResult.handled [act] true
      | RunOutcome.errMsg _ => HandlerResult.handled [] true
      | RunOutcome.panicked => HandlerResult.panicked
    else
      HandlerResult.handled [] true

/-- NetworkManager::on_request_paused (network_manager.rs 274-310), reached for
Fetch.requestPaused events without a response status: errors out when the session
id is not registered; builds an HttpRequest with protocol method
"Fetch.requestPaused" and no credentials; when the interception flag is false it
auto-continues the request (errors swallowed) and then always broadcasts it. -/
def NetworkManager.onRequestPausedModel (sessionRegistered : Bool) (interception : Bool)
    (requestId : String) : HandlerResult :=
  if !sessionRegistered then
    HandlerResult.errSession
  else
    let request : HttpRequestModel :=
      { protocolMethod := "Fetch.requestPaused", requestId := requestId, credentials := none }
    if !interception then
      match HttpRequest.continueRequestModel request with
      | RunOutcome.ok act => HandlerResult.handled [act] true
      | RunOutcome.errMsg _ => HandlerResult.handled [] true
      | RunOutcome.panicked => HandlerResult.panicked
    else
      HandlerResult.handled [] true

/-- HttpResponse::continue_response (http_response.rs 78-83): always
Fetch.continueRequest. -/
def HttpResponse.continueResponseModel (requestId : String) : FetchAction :=
  FetchAction.continueRequest requestId

/-- How the Fetch.getResponseBody round-trip (network_manager.rs 376-386) ended:
the send itself returned Err(_) — the body is recorded as None and handling
proceeds — or it succeeded with a CDP Response, whose result_as decides the rest. -/
inductive BodyFetchOutcome : Type where
  | sendErr : BodyFetchOutcome
  | sendOk : Response → BodyFetchOutcome

/-- Result of NetworkManager::on_response_received: an early error return (session
id not registered, or the ? on result_as::<ResponseBody> at network_manager.rs 384
propagating a CDP error result before any continue or broadcast), a panic, or a
normal completion recording the Fetch calls issued, whether the HttpResponse was
sent to the response broadcast, and the body it carried. -/
inductive ResponseHandlerResult : Type where
  | errSession : ResponseHandlerResult
  | errBody : String → ResponseHandlerResult
  | panicked : ResponseHandlerResult
  | handled : List FetchAction → Bool → Option JVal → ResponseHandlerResult

/-- NetworkManager::on_response_received (network_manager.rs 352-406), reached for
Fetch.requestPaused events with a response status: errors out when the event's
session id is not registered; for non-redirect statuses (not 301/302/303/307/308)
it fetches Fetch.getResponseBody — a transport error leaves the body None, while a
successful send whose CDP Response carries an error result makes
result_as::<ResponseBody> fail and the ? at network_manager.rs 384 RETURNS that
error before any continue or broadcast (and a Response with neither result nor
error would panic inside result_as, cf. C10); then HttpResponse::new unwraps the
response status text and headers (http_response.rs 37-39), panicking when either
is absent; when the interception flag is false the response is auto-continued
(errors swallowed) and it is then always sent to the response broadcast with the
fetched body. -/
def NetworkManager.onResponseReceivedModel (sessionRegistered : Bool) (interception : Bool)
    (requestId : String) (statusCode : Int)
    (statusTextPresent headersPresent : Bool)
    (bodyFetch : BodyFetchOutcome) : ResponseHandlerResult :=
  if !sessionRegistered then
    ResponseHandlerResult.errSession
  else
    let isRedirect := statusCode == 301 || statusCode == 302 || statusCode == 303 ||
      statusCode == 307 || statusCode == 308
    let finish : Option JVal → ResponseHandlerResult := fun body =>
      if !(statusTextPresent && headersPresent) then
        ResponseHandlerResult.panicked
      else if !interception then
        ResponseHandlerResult.handled
          [HttpResponse.continueResponseModel requestId] true body
      else
        ResponseHandlerResult.handled [] true body
    if isRedirect then
      finish none
    else
      match bodyFetch with
      | BodyFetchOutcome.sendErr => finish none
      | BodyFetchOutcome.sendOk r =>
        match r.resultAs with
        | ExtractOutcome.ok v => finish (some v)
        | ExtractOutcome.err m => ResponseHandlerResult.errBody m
        | ExtractOutcome.panicked => ResponseHandlerResult.panicked

/-- The network-manager state the interception claims read: the network_handler
flag and the live request/response stream handles. -/
structure NetworkManagerState where
  interception : Bool
  requestStreamsLive : Nat
  responseStreamsLive : Nat
deriving DecidableEq

/-- NetworkManager::set_request_interception (network_manager.rs 416-418). -/
def NetworkManager.setRequestInterception (st : NetworkManagerState) (enabled : Bool) :
    NetworkManagerState :=
  { st with interception := enabled }

/-- FrameInner::subscribe_to_requests (frame_inner.rs 182-188): sets the
interception flag true and subscribes one RequestStream and one ResponseStream. -/
def FrameInner.subscribeToRequests (st : NetworkManagerState) : NetworkManagerState :=
  let st1 := NetworkManager.setRequestInterception st true
  { st1 with requestStreamsLive := st1.requestStreamsLive + 1,
             responseStreamsLive := st1.responseStreamsLive + 1 }

/-- RequestStream::drop (network_manager.rs 47-53): when the manager is still
alive, sets the interception flag false. -/
def RequestStream.dropModel (managerLive : Bool) (st : NetworkManagerState) :
    NetworkManagerState :=
  let st1 := { st with requestStreamsLive := st.requestStreamsLive - 1 }
  if managerLive then NetworkManager.setRequestInterception st1 false else st1

/-- ResponseStream::drop (network_manager.rs 79-85): when the manager is still
alive, sets the interception flag false. -/
def ResponseStream.dropModel (managerLive : Bool) (st : NetworkManagerState) :
    NetworkManagerState :=
  let st1 := { st with responseStreamsLive := st.responseStreamsLive - 1 }
  if managerLive then NetworkManager.setRequestInterception st1 false else st1

/-! # The per-target DOM lock (target.rs 306-308, frame_inner.rs 577-623, 856-885) -/

/-- An atomic step of a DOM operation as far as the per-target lock is concerned. -/
inductive DomAction : Type where
  | acquire : DomAction
  | release : DomAction
  | callCdp : String → DomAction
deriving DecidableEq

/-- Checks that every CDP call in the trace happens while the lock is held
(depth accumulates nested acquires; a call at depth 0 is outside the lock). -/
def lockDepthOk : Nat → List DomAction → Bool
  | _, [] => true
  | d, DomAction.acquire :: rest => lockDepthOk (d + 1) rest
  | d, DomAction.release :: rest =>
    match d with
    | 0 => false
    | d + 1 => lockDepthOk d rest
  | d, DomAction.callCdp _ :: rest => (!(d == 0)) && lockDepthOk d rest

/-- A trace holds the lock for its whole CDP span iff every call is at positive
lock depth. -/
def lockHeldDuringCalls (tr : List DomAction) : Bool := lockDepthOk 0 tr

/-- The lock/CDP trace of FrameInner::query_selector (frame_inner.rs 577-596) on
the happy path of a plain CSS selector with no scope node.  The statement
`let _ = self.dom_lock().await.lock().await;` binds the MutexGuard to the wildcard
pattern, which drops the guard at the end of that statement — so the lock is
released before any CDP call: DOM.getDocument (QueryBuilder resolves the start
node via FrameInner::node), then DOM.pushNodesByBackendIdsToFrontend (bound_node),
DOM.querySelector and DOM.describeNode (QueryBuilder::query_selector). -/
def querySelectorActions : List DomAction :=
  [DomAction.acquire, DomAction.release,
   DomAction.callCdp "DOM.getDocument",
   DomAction.callCdp "DOM.pushNodesByBackendIdsToFrontend",
   DomAction.callCdp "DOM.querySelector",
   DomAction.callCdp "DOM.describeNode"]

/-- The trace of FrameInner::query_selector_all (frame_inner.rs 598-623), same
wildcard binding; it additionally issues an explicit DOM.getDocument before the
query builder runs. -/
def querySelectorAllActions : List DomAction :=
  [DomAction.acquire, DomAction.release,
   DomAction.callCdp "DOM.getDocument",
   DomAction.callCdp "DOM.getDocument",
   DomAction.callCdp "DOM.pushNodesByBackendIdsToFrontend",
   DomAction.callCdp "DOM.querySelectorAll",
   DomAction.callCdp "DOM.describeNode"]

/-- The trace of FrameInner::get_attributes (frame_inner.rs 856-885): here the
guard is bound to a name (`let lock = dom_lock.lock().await;`) and explicitly
dropped after the query, so the bind-then-query span is under the lock. -/
def getAttributesActions : List DomAction :=
  [DomAction.acquire,
   DomAction.callCdp "DOM.pushNodesByBackendIdsToFrontend",
   DomAction.callCdp "DOM.getAttributes",
   DomAction.release]

/-- Runs a thread-tagged schedule against a single mutex: acquire succeeds only
when the mutex is free, release only by the owner; returns whether the schedule is
a legal execution. -/
def mutexRun : Option Bool → List (Bool × DomAction) → Bool
  | _, [] => true
  | owner, (t, DomAction.acquire) :: rest =>
    match owner with
    | none => mutexRun (some t) rest
    | some _ => false
  | owner, (t, DomAction.release) :: rest =>
    if owner == some t then mutexRun none rest else false
  | owner, (_, DomAction.callCdp _) :: rest => mutexRun owner rest

/-- The subsequence of a schedule executed by one thread. -/
def projThread (t : Bool) (sched : List (Bool × DomAction)) : List DomAction :=
  (sched.filter (fun p => p.1 == t)).map Prod.snd

/-- The thread tags of the CDP calls of a schedule, in schedule order. -/
def callThreads (sched : List (Bool × DomAction)) : List Bool :=
  sched.filterMap (fun p =>
    match p.2 with
    | DomAction.callCdp _ => some p.1
    | _ => none)

/-- Number of thread alternations in a tag list; a serialized execution of two
operations has at most one alternation among their CDP calls. -/
def switches : List Bool → Nat
  | [] => 0
  | [_] => 0
  | a :: b :: rest => (if a == b then 0 else 1) + switches (b :: rest)

/-- A legal schedule of two concurrent query_selector calls on frames of the same
target in which their CDP calls fully interleave: both acquire and immediately
release the guard, then alternate their four CDP calls. -/
def demoSchedule : List (Bool × DomAction) :=
  [(true, DomAction.acquire), (true, DomAction.release),
   (false, DomAction.acquire), (false, DomAction.release),
   (true, DomAction.callCdp "DOM.getDocument"),
   (false, DomAction.callCdp "DOM.getDocument"),
   (true, DomAction.callCdp "DOM.pushNodesByBackendIdsToFrontend"),
   (false, DomAction.callCdp "DOM.pushNodesByBackendIdsToFrontend"),
   (true, DomAction.callCdp "DOM.querySelector"),
   (false, DomAction.callCdp "DOM.querySelector"),
   (true, DomAction.callCdp "DOM.describeNode"),
   (false, DomAction.callCdp "DOM.describeNode")]

/-! # wait_for_navigation (src/core/cdp/frame_inner.rs 352-444) -/

/-- The canonical lifecycle event order (frame_inner.rs 375-381). -/
def lifecycleEventOrder : List String :=
  ["init", "load", "DOMContentLoaded", "networkAlmostIdle", "networkIdle"]

/-- The lifecycle_event_map (frame_inner.rs 360-369): the accepted waitUntil
options and the protocol event each maps to; None for unknown options
("Unknown waitUntil option"). -/
def lifecycleEventMap (waitUntil : String) : Option String :=
  if waitUntil = "init" then some "init"
  else if waitUntil = "load" then some "load"
  else if waitUntil = "domcontentloaded" then some "DOMContentLoaded"
  else if waitUntil = "networkidle2" then some "networkAlmostIdle"
  else if waitUntil = "networkidle0" then some "networkIdle"
  else none

/-- The events the navigation waiter subscribes to, as they matter to it. -/
inductive NavEvent : Type where
  | lifecycle : String → String → NavEvent
  | loadingFailed : String → NavEvent
  | other : NavEvent
deriving DecidableEq

/-- How the navigation wait ends (ignoring the outer timeout, settled by C5):
success, NavigationFailed, unknown waitUntil, or the event stream closing. -/
inductive NavOutcome : Type where
  | success : NavOutcome
  | navigationFailed : NavOutcome
  | invalidArgument : NavOutcome
  | internalError : NavOutcome
  | channelClosed : NavOutcome
deriving DecidableEq

/-- The waiter loop (frame_inner.rs 401-428) over the incoming event stream: a
Network.loadingFailed with resource type "Document" fails the navigation; a
Page.lifecycleEvent for this frame whose name is in the expected suffix of the
canonical order (and whose index is at or after the target index) succeeds; all
other events are skipped; an exhausted stream reports the channel closed. -/
def navLoop (frameId : String) (targetIndex : Nat) : List NavEvent → NavOutcome
  | [] => NavOutcome.channelClosed
  | ev :: rest =>
    match ev with
    | NavEvent.loadingFailed rt =>
      if rt == "Document" then NavOutcome.navigationFailed
      else navLoop frameId targetIndex rest
    | NavEvent.lifecycle fid name =>
      if fid == frameId && (lifecycleEventOrder.drop targetIndex).contains name then
        if targetIndex ≤ lifecycleEventOrder.findIdx (fun e => e == name) then
          NavOutcome.success
        else navLoop frameId targetIndex rest
      else navLoop frameId targetIndex rest
    | NavEvent.other => navLoop frameId targetIndex rest

/-- FrameInner::wait_for_navigation (frame_inner.rs 352-444) up to its decision:
waitUntil defaults to "load"; unknown options are an InvalidArgument error; the
target index is the mapped event's position in the canonical order; then the
waiter loop runs over the subscribed event stream. -/
def FrameInner.waitForNavigationModel (frameId : String) (waitUntil : Option String)
    (events : List NavEvent) : NavOutcome :=
  let w := waitUntil.getD "load"
  match lifecycleEventMap w with
  | none => NavOutcome.invalidArgument
  | some expectedEvent =>
    if lifecycleEventOrder.contains expectedEvent then
      navLoop frameId (lifecycleEventOrder.findIdx (fun e => e == expectedEvent)) events
    else
      NavOutcome.internalError

/-- An event that makes the waiter loop succeed for this frame and target index. -/
def navMatches (frameId : String) (targetIndex : Nat) (ev : NavEvent) : Bool :=
  match ev with
  | NavEvent.lifecycle fid name =>
    fid == frameId && (lifecycleEventOrder.drop targetIndex).contains name &&
      decide (targetIndex ≤ lifecycleEventOrder.findIdx (fun e => e == name))
  | _ => false

/-- An event that makes the waiter loop fail: a Document loadingFailed. -/
def navFails (ev : NavEvent) : Bool :=
  match ev with
  | NavEvent.loadingFailed rt => rt == "Document"
  | _ => false

/-! # text(...) search (src/core/cdp/query_builder.rs 179-317) -/

/-- hay starts with needle (character-wise). -/
def charsStartWith : List Char → List Char → Bool
  | _, [] => true
  | [], _ :: _ => false
  | a :: as, b :: bs => a == b && charsStartWith as bs

/-- needle occurs somewhere in hay (Rust str::contains). -/
def charsContain : List Char → List Char → Bool
  | [], needle => charsStartWith [] needle
  | a :: rest, needle => charsStartWith (a :: rest) needle || charsContain rest needle

/-- Rust hay.contains(needle) on strings. -/
def strContains (hay needle : String) : Bool := charsContain hay.data needle.data

/-- A DOM node as returned by DOM.getDocument { depth: -1, pierce: true }
(domains/dom.rs FullNode): backendNodeId, localName, nodeValue, children,
pseudoElements and shadowRoots (absent vectors modelled as []). -/
inductive DomNode : Type where
  | node : Nat → String → String → List DomNode → List DomNode → List DomNode → DomNode

def DomNode.backendNodeId : DomNode → Nat
  | DomNode.node i _ _ _ _ _ => i

def DomNode.localName : DomNode → String
  | DomNode.node _ ln _ _ _ _ => ln

def DomNode.nodeValue : DomNode → String
  | DomNode.node _ _ nv _ _ _ => nv

def DomNode.children : DomNode → List DomNode
  | DomNode.node _ _ _ c _ _ => c

def DomNode.pseudoElements : DomNode → List DomNode
  | DomNode.node _ _ _ _ p _ => p

def DomNode.shadowRoots : DomNode → List DomNode
  | DomNode.node _ _ _ _ _ s => s

/-- QueryBuilder::find_by_text (query_builder.rs 245-278): scans the node's
children in order; a child text value equal to or containing the literal matches
the parent node unless the parent's local name is script or style; otherwise
recurses into the child, then into pseudo elements, then into shadow roots,
returning the first match.  The model returns the matched node itself (the source
returns its backendNodeId with the frame); fuel bounds the recursion depth and is
taken larger than the tree height at every use. -/
def findByText (fuel : Nat) (text : String) (nd : DomNode) : Option DomNode :=
  match fuel with
  | 0 => none
  | f + 1 =>
    match nd.children.findSome? (fun child =>
        if (child.nodeValue == text || strContains child.nodeValue text)
            && !(nd.localName == "script") && !(nd.localName == "style") then
          some nd
        else
          findByText f text child) with
    | some r => some r
    | none =>
      match nd.pseudoElements.findSome? (fun p => findByText f text p) with
      | some r => some r
      | none => nd.shadowRoots.findSome? (fun s => findByText f text s)

/-- QueryBuilder::find_by_text_all (query_builder.rs 280-317): same walk, but
collects every match (the parent node is pushed once per matching child). -/
def findByTextAll (fuel : Nat) (text : String) (nd : DomNode) : List DomNode :=
  match fuel with
  | 0 => []
  | f + 1 =>
    (nd.children.flatMap (fun child =>
        (if (child.nodeValue == text || strContains child.nodeValue text)
              && !(nd.localName == "script") && !(nd.localName == "style") then
            [nd]
          else []) ++ findByTextAll f text child))
      ++ (nd.pseudoElements.flatMap (fun p => findByTextAll f text p))
      ++ (nd.shadowRoots.flatMap (fun s => findByTextAll f text s))

/-- A frame as the text search sees it: frame id, target id, the full document
(DOM.getDocument { depth: -1, pierce: true }) and the child frames in the order
child_frames() yields them. -/
inductive FrameTree : Type where
  | frame : String → String → DomNode → List FrameTree → FrameTree

def FrameTree.frameId : FrameTree → String
  | FrameTree.frame f _ _ _ => f

def FrameTree.targetId : FrameTree → String
  | FrameTree.frame _ t _ _ => t

def FrameTree.doc : FrameTree → DomNode
  | FrameTree.frame _ _ d _ => d

def FrameTree.childFrames : FrameTree → List FrameTree
  | FrameTree.frame _ _ _ c => c

/-- The while-let loop of QueryBuilder::find_by_text_everywhere (query_builder.rs
195-241).  frames_to_process is a Vec used with push/pop, i.e. a stack: the model
keeps the stack top at the list head, so pushing child frames in order makes the
LAST child the next frame popped.  A popped frame already processed by target id
or frame id is skipped; otherwise its full document is fetched and searched: in
the single variant a hit appends the match and returns immediately; otherwise the
frame's ids are recorded as processed and its children pushed.  The first
component of the result is the matches list (backendNodeId with the owning frame
id); the second records the processed (frameId, targetId) pairs in processing
order — the source keeps those sets without order, the order is recorded here to
state claims about the traversal. -/
def textSearchLoop (fuel dfuel : Nat) (text : String) (all : Bool)
    (stack : List FrameTree) (pt pf : List String) (nodes : List (Nat × String)) :
    List (Nat × String) × List (String × String) :=
  match fuel, stack with
  | 0, _ => (nodes, [])
  | _ + 1, [] => (nodes, [])
  | f + 1, cur :: rest =>
    if pt.contains cur.targetId then
      textSearchLoop f dfuel text all rest pt pf nodes
    else if pf.contains cur.frameId then
      textSearchLoop f dfuel text all rest pt pf nodes
    else
      if all then
        let found := (findByTextAll dfuel text cur.doc).map
          (fun m => (m.backendNodeId, cur.frameId))
        let res := textSearchLoop f dfuel text all (cur.childFrames.reverse ++ rest)
          (cur.targetId :: pt) (cur.frameId :: pf) (nodes ++ found)
        (res.1, (cur.frameId, cur.targetId) :: res.2)
      else
        match findByText dfuel text cur.doc with
        | some m =>
          (nodes ++ [(m.backendNodeId, cur.frameId)], [(cur.frameId, cur.targetId)])
        | none =>
          let res := textSearchLoop f dfuel text all (cur.childFrames.reverse ++ rest)
            (cur.targetId :: pt) (cur.frameId :: pf) nodes
          (res.1, (cur.frameId, cur.targetId) :: res.2)

/-- QueryBuilder::find_by_text_everywhere (query_builder.rs 179-243) entry point:
starts with the current frame on the stack and empty processed sets. -/
def findByTextEverywhere (fuel dfuel : Nat) (text : String) (all : Bool)
    (root : FrameTree) : List (Nat × String) × List (String × String) :=
  textSearchLoop fuel dfuel text all [root] [] [] []

/-- The depth of a frame id inside a frame tree (999 when absent); used only to
state the breadth-first claim about the traversal order. -/
def frameDepth (fuel : Nat) (t : FrameTree) (fid : String) : Nat :=
  match fuel with
  | 0 => 999
  | f + 1 =>
    if t.frameId == fid then 0
    else
      match t.childFrames.findSome? (fun c =>
          let d := frameDepth f c fid
          if d == 999 then none else some (d + 1)) with
      | some d => d
      | none => 999

/-- The matched element is not a script or style element (the guard on
query_builder.rs 254 / 290). -/
def notScriptStyle (m : DomNode) : Bool :=
  !(m.localName == "script") && !(m.localName == "style")

/-- The element has a direct child whose node value equals or contains the
literal (the match test on query_builder.rs 253 / 289). -/
def hasMatchingChild (text : String) (m : DomNode) : Bool :=
  m.children.any (fun c => c.nodeValue == text || strContains c.nodeValue text)

/-- A document with no text content, used by the traversal-order counterexample. -/
def leafDoc : DomNode := DomNode.node 1 "html" "" [] [] []

/-- A frame tree of depth two: root r with children a (child c) and b (child d);
each frame its own target. -/
def demoFrameTree : FrameTree :=
  FrameTree.frame "r" "tr" leafDoc
    [FrameTree.frame "a" "ta" leafDoc [FrameTree.frame "c" "tc" leafDoc []],
     FrameTree.frame "b" "tb" leafDoc [FrameTree.frame "d" "td" leafDoc []]]

/-! # Theorems -/

/-- C10 counterexample: the wire frame {"id": 7} deserializes as a Response (the
untagged IncomingMessage takes the Response variant) with both result and error
absent, and result_as on it panics (error.unwrap() on None) instead of returning
an error value — so a deserialized Response CAN have both fields absent and
result_as is not panic-free. -/
theorem c10_counterexample :
    parseIncoming (JVal.jobj [("id", JVal.jnum 7)]) =
      some (IncomingMessage.response
        { id := 7, sessionId := none, result := none, error := none }) ∧
    Response.resultAs { id := 7, sessionId := none, result := none, error := none } =
      ExtractOutcome.panicked := by
  exact ⟨rfl, rfl⟩

/-- C10 (amended): for every Response in which at least one of result and error is
present, result_as does not panic: it returns the result when the result is
present, and an error carrying the stored error's message when the result is
absent and an error is present. -/
theorem c10_theorem (r : Response) (h : r.result.isSome ∨ r.error.isSome) :
    Response.resultAs r ≠ ExtractOutcome.panicked ∧
    (∀ v, r.result = some v → Response.resultAs r = ExtractOutcome.ok v) ∧
    (∀ e, r.result = none → r.error = some e →
      Response.resultAs r = ExtractOutcome.err e.message) := by
  obtain ⟨i, s, res, err⟩ := r
  refine ⟨?_, ?_, ?_⟩
  · cases res with
    | some v => simp [Response.resultAs]
    | none =>
      cases err with
      | some e => simp [Response.resultAs]
      | none => simp at h
  · intro v hv
    cases hv
    simp [Response.resultAs]
  · intro e hres herr
    cases hres
    cases herr
    simp [Response.resultAs]

/-- C10 witness: a Response with an error and no result extracts to that error
without panicking. -/
theorem c10_witness :
    Response.resultAs
        { id := 1, sessionId := none, result := none,
          error := some { code := -32000, message := "boom" } } ≠
      ExtractOutcome.panicked :=
  (c10_theorem
    { id := 1, sessionId := none, result := none,
      error := some { code := -32000, message := "boom" } } (Or.inr rfl)).1

/-- C3 counterexample: a subscriber with method set {Page.lifecycleEvent} and
non-empty session set {session-A} receives an event with a matching method and NO
sessionId — the code delivers it (the session filter only applies when the event
carries a sessionId), while the claimed iff condition (set empty OR the event's
sessionId in the set) is false for it. -/
theorem c3_counterexample :
    EventSubscriber.sendModel
        { methods := ["Page.lifecycleEvent"], sessionIds := ["session-A"] }
        { method := "Page.lifecycleEvent", params := JVal.jnull, sessionId := none } = true ∧
    ¬ specDelivers
        { methods := ["Page.lifecycleEvent"], sessionIds := ["session-A"] }
        { method := "Page.lifecycleEvent", params := JVal.jnull, sessionId := none } := by
  refine ⟨rfl, ?_⟩
  rintro ⟨-, h | ⟨sid, hsid, -⟩⟩
  · simp at h
  · simp at hsid

/-- C3 (amended): an event is delivered to a subscriber's sink iff its method is in
the subscriber's method set AND (the event carries no sessionId OR the session set
is empty OR the event's sessionId is in the session set); in particular a
subscriber with an empty method set receives no events. -/
theorem c3_theorem :
    (∀ (s : EventSubscriber) (e : Event),
      EventSubscriber.sendModel s e = true ↔
        (e.method ∈ s.methods ∧
          (e.sessionId = none ∨ s.sessionIds = [] ∨
            ∃ sid, e.sessionId = some sid ∧ sid ∈ s.sessionIds))) ∧
    (∀ (m : String) (p : JVal) (sid : Option String) (ss : List String),
      EventSubscriber.sendModel { methods := [], sessionIds := ss }
        { method := m, params := p, sessionId := sid } = false) := by
  constructor
  · intro s e
    obtain ⟨ms, ss⟩ := s
    obtain ⟨m, p, sid⟩ := e
    cases sid with
    | none => simp [EventSubscriber.sendModel]
    | some v =>
      by_cases hm : m ∈ ms
      · by_cases hss : ss = []
        · subst hss
          simp [EventSubscriber.sendModel, hm]
        · by_cases hv : v ∈ ss
          · simp [EventSubscriber.sendModel, hm, hss, hv]
          · simp [EventSubscriber.sendModel, hm, hss, hv]
      · simp [EventSubscriber.sendModel, hm]
  · intro m p sid ss
    cases sid <;> simp [EventSubscriber.sendModel]

/-- C9 counterexample: FrameInner::target on a dangling weak Target reference
panics with "Target is dropped"; it does not return an error to the caller. -/
theorem c9_counterexample :
    FrameInner.targetAccess WeakRef.dangling = AccessOutcome.panicked "Target is dropped" ∧
    ¬ ∃ msg, FrameInner.targetAccess WeakRef.dangling = AccessOutcome.errMsg msg := by
  refine ⟨rfl, ?_⟩
  rintro ⟨msg, h⟩
  simp [FrameInner.targetAccess] at h

/-- C9 (amended): a user-facing Element handle whose FrameInner is gone fails with
an error returned to the caller, but FrameInner operations after their Target has
been dropped panic ("Target is dropped"), as does FrameInner::backend_node_id when
no backend node id is stored; live references resolve normally. -/
theorem c9_theorem :
    Element.frameInnerAccess WeakRef.dangling =
      AccessOutcome.errMsg "Frame inner is not available" ∧
    FrameInner.targetAccess WeakRef.dangling =
      AccessOutcome.panicked "Target is dropped" ∧
    FrameInner.backendNodeIdAccess none =
      AccessOutcome.panicked "Backend node id is not set" ∧
    (∀ t : Target, FrameInner.targetAccess (WeakRef.live t) = AccessOutcome.ok t) :=
  ⟨rfl, rfl, rfl, fun _ => rfl⟩

/-- C5 counterexample: a zero timeout passed to wait_for_navigation makes it wait
indefinitely (timeout.is_zero() selects the unbounded rx.await branch); it does
not substitute the frame's default timeout. -/
theorem c5_counterexample :
    FrameInner.waitForNavigationBound (some 0) FrameInner.defaultTimeoutInitMillis =
      WaitBound.indefinite ∧
    FrameInner.waitForNavigationBound (some 0) FrameInner.defaultTimeoutInitMillis ≠
      WaitBound.bounded FrameInner.defaultTimeoutInitMillis := by
  exact ⟨rfl, by decide⟩

/-- C5 (amended): a zero timeout makes BOTH wait_for_selector and
wait_for_navigation wait indefinitely; the frame default timeout — initialized to
30 seconds — is substituted only when the timeout argument is absent (None). -/
theorem c5_theorem (d : Nat) (hd : d ≠ 0) :
    FrameInner.waitForSelectorBound (some 0) d = WaitBound.indefinite ∧
    FrameInner.waitForNavigationBound (some 0) d = WaitBound.indefinite ∧
    FrameInner.waitForSelectorBound none d = WaitBound.bounded d ∧
    FrameInner.waitForNavigationBound none d = WaitBound.bounded d ∧
    FrameInner.defaultTimeoutInitMillis = 30000 := by
  refine ⟨rfl, rfl, ?_, ?_, rfl⟩ <;>
    simp [FrameInner.waitForSelectorBound, FrameInner.waitForNavigationBound, hd]

/-- C5 witness: with the initial 30 s default, an absent timeout bounds the
navigation wait by 30000 ms. -/
theorem c5_witness :
    FrameInner.waitForNavigationBound none 30000 = WaitBound.bounded 30000 :=
  (c5_theorem 30000 (by decide)).2.2.2.1

/-- C1 (code bug, evaluated at the failing input): in query_selector and
query_selector_all the guard of the per-target DOM lock is bound to the wildcard
pattern and dropped immediately, so none of their CDP calls happen under the lock
(lockHeldDuringCalls is false), while get_attributes keeps the guard across its
bind-then-query span; consequently there is a legal mutex schedule of two
concurrent query_selector calls on the same target whose CDP calls fully
interleave (every adjacent pair of calls alternates threads). -/
theorem c1_bug_eval :
    lockHeldDuringCalls querySelectorActions = false ∧
    lockHeldDuringCalls querySelectorAllActions = false ∧
    lockHeldDuringCalls getAttributesActions = true ∧
    mutexRun none demoSchedule = true ∧
    projThread true demoSchedule = querySelectorActions ∧
    projThread false demoSchedule = querySelectorActions ∧
    2 ≤ switches (callThreads demoSchedule) := by
  refine ⟨rfl, rfl, rfl, rfl, by decide, by decide, by decide⟩

/-- C4 (code bug, evaluated at the failing input): a Fetch.authRequired event for
a registered session with the interception flag false and NO stored credentials
makes the handler panic (credentials.as_ref().unwrap() inside
HttpRequest::continue_request), so neither a CancelAuth continueWithAuth nor the
broadcast delivery happens; with credentials stored it auto-continues with
ProvideCredentials and broadcasts; CancelAuth is only ever sent by
HttpRequest::abort, which the auto-continue path never calls; with interception
active nothing is auto-issued and the request is still broadcast. -/
theorem c4_bug_eval :
    NetworkManager.onAuthRequired true false none "req-1" = HandlerResult.panicked ∧
    NetworkManager.onAuthRequired true false
        (some { username := "u", password := "p" }) "req-1" =
      HandlerResult.handled
        [FetchAction.continueWithAuth "req-1"
          (AuthDecision.provideCredentials { username := "u", password := "p" })] true ∧
    HttpRequest.abortModel
        { protocolMethod := "Fetch.authRequired", requestId := "req-1",
          credentials := none } =
      FetchAction.continueWithAuth "req-1" AuthDecision.cancelAuth ∧
    NetworkManager.onAuthRequired true true none "req-1" = HandlerResult.handled [] true := by
  refine ⟨rfl, rfl, rfl, rfl⟩

/-- C8 counterexample: with interception inactive, a paused non-redirect response
whose Fetch.getResponseBody send succeeds but whose CDP Response carries an error
result (as the browser returns for a bodyless response) makes
result_as::<ResponseBody> fail; the ? at network_manager.rs 384 propagates that
error out of on_response_received BEFORE the auto-continue and the broadcast, so
this paused response is neither continued nor delivered — refuting "every paused
request and response is auto-continued immediately". -/
theorem c8_counterexample :
    NetworkManager.onResponseReceivedModel true false "req-9" 200 true true
        (BodyFetchOutcome.sendOk
          { id := 12, sessionId := none, result := none,
            error := some { code := -32000,
                            message := "No resource with given identifier found" } }) =
      ResponseHandlerResult.errBody "No resource with given identifier found" ∧
    (∀ (acts : List FetchAction) (b : Bool) (body : Option JVal),
      NetworkManager.onResponseReceivedModel true false "req-9" 200 true true
          (BodyFetchOutcome.sendOk
            { id := 12, sessionId := none, result := none,
              error := some { code := -32000,
                              message := "No resource with given identifier found" } }) ≠
        ResponseHandlerResult.handled acts b body) := by
  refine ⟨rfl, fun acts b body h => ?_⟩
  exact ResponseHandlerResult.noConfusion h

/-- C8 (amended): with the interception flag false, every paused request (for a
registered session) is auto-continued via Fetch.continueRequest and broadcast; a
paused response is auto-continued and broadcast — with no body for redirect
statuses or when the body-fetch send fails, and with the fetched body when the
Fetch.getResponseBody result is present — UNLESS extracting that result fails
(CDP error result), in which case the handler returns the error before continuing
or broadcasting anything; subscribe_to_requests sets the flag true, and dropping
all subscription stream handles returns the manager to the disabled state. -/
theorem c8_theorem :
    (∀ rid, NetworkManager.onRequestPausedModel true false rid =
      HandlerResult.handled [FetchAction.continueRequest rid] true) ∧
    (∀ rid sc bf,
      (sc == 301 || sc == 302 || sc == 303 || sc == 307 || sc == 308) = true →
      NetworkManager.onResponseReceivedModel true false rid sc true true bf =
        ResponseHandlerResult.handled [FetchAction.continueRequest rid] true none) ∧
    (∀ rid sc,
      (sc == 301 || sc == 302 || sc == 303 || sc == 307 || sc == 308) = false →
      NetworkManager.onResponseReceivedModel true false rid sc true true
          BodyFetchOutcome.sendErr =
        ResponseHandlerResult.handled [FetchAction.continueRequest rid] true none) ∧
    (∀ rid sc (r : Response) v,
      (sc == 301 || sc == 302 || sc == 303 || sc == 307 || sc == 308) = false →
      r.result = some v →
      NetworkManager.onResponseReceivedModel true false rid sc true true
          (BodyFetchOutcome.sendOk r) =
        ResponseHandlerResult.handled [FetchAction.continueRequest rid] true (some v)) ∧
    (∀ rid sc (r : Response) e,
      (sc == 301 || sc == 302 || sc == 303 || sc == 307 || sc == 308) = false →
      r.result = none → r.error = some e →
      NetworkManager.onResponseReceivedModel true false rid sc true true
          (BodyFetchOutcome.sendOk r) = ResponseHandlerResult.errBody e.message) ∧
    (∀ st, (FrameInner.subscribeToRequests st).interception = true) ∧
    (∀ st : NetworkManagerState,
      ResponseStream.dropModel true (RequestStream.dropModel true
          (FrameInner.subscribeToRequests st)) =
        { interception := false,
          requestStreamsLive := st.requestStreamsLive,
          responseStreamsLive := st.responseStreamsLive }) := by
  refine ⟨fun rid => rfl, ?_, ?_, ?_, ?_, fun st => rfl, fun st => ?_⟩
  · intro rid sc bf h
    simp [NetworkManager.onResponseReceivedModel, HttpResponse.continueResponseModel, h]
  · intro rid sc h
    simp [NetworkManager.onResponseReceivedModel, HttpResponse.continueResponseModel, h]
  · intro rid sc r v h hres
    simp [NetworkManager.onResponseReceivedModel, HttpResponse.continueResponseModel, h,
      Response.resultAs, hres]
  · intro rid sc r e h hres herr
    simp [NetworkManager.onResponseReceivedModel, h, Response.resultAs, hres, herr]
  · obtain ⟨i, a, b⟩ := st
    simp [FrameInner.subscribeToRequests, RequestStream.dropModel,
      ResponseStream.dropModel, NetworkManager.setRequestInterception]

/-- C8 witness: a 200 response with a fetched body is auto-continued and broadcast
with that body, and a 302 redirect is auto-continued with no body. -/
theorem c8_witness :
    NetworkManager.onResponseReceivedModel true false "req-7" 200 true true
        (BodyFetchOutcome.sendOk
          { id := 3, sessionId := none, result := some (JVal.jstr "body"),
            error := none }) =
      ResponseHandlerResult.handled [FetchAction.continueRequest "req-7"] true
        (some (JVal.jstr "body")) ∧
    NetworkManager.onResponseReceivedModel true false "req-7" 302 true true
        BodyFetchOutcome.sendErr =
      ResponseHandlerResult.handled [FetchAction.continueRequest "req-7"] true none :=
  ⟨c8_theorem.2.2.2.1 "req-7" 200
      { id := 3, sessionId := none, result := some (JVal.jstr "body"), error := none }
      (JVal.jstr "body") (by decide) rfl,
   c8_theorem.2.1 "req-7" 302 BodyFetchOutcome.sendErr (by decide)⟩

/-- C2 counterexample: a send that starts with the disconnecting flag clear and
whose waiter channel is then dropped (the waiters map is drained by disconnect
before a response arrives) observes an error that is none of the claim's three
enumerated outcomes — not a Response, not the 30 s timeout error, and not the
immediate flag-set-at-call-time error. -/
theorem c2_counterexample :
    (Connection.sendModel
        { nextId := 0, waiters := [], outQueue := [], disconnecting := false }
        WaitOutcome.dropped).1 = SendResult.errNoResponse ∧
    ¬ claimSendOutcome SendResult.errNoResponse := by
  refine ⟨rfl, ?_⟩
  rintro (⟨r, h⟩ | h | h) <;> simp at h

/-- C2 (amended): every send observes exactly one of FOUR outcomes: with the
disconnecting flag set at call time, an immediate error with nothing enqueued and
no waiter registered; otherwise the request is enqueued under the freshly
allocated id and the caller sees either the Response its oneshot was completed
with, or (after the 30000 ms default timeout) a timeout error with the waiter
entry removed — after which a response bearing that id is silently discarded —
or a channel error when the waiter was dropped during disconnection.  The
receiver delivers a response iff a waiter is registered under its id. -/
theorem c2_theorem (st : ConnState) (outcome : WaitOutcome) :
    (st.disconnecting = true →
      Connection.sendModel st outcome = (SendResult.errDisconnecting, st)) ∧
    (st.disconnecting = false →
      (∀ r, outcome = WaitOutcome.responded r →
        (Connection.sendModel st outcome).1 = SendResult.ok r) ∧
      (outcome = WaitOutcome.timedOut →
        (Connection.sendModel st outcome).1 = SendResult.errTimedOut ∧
        st.nextId ∉ (Connection.sendModel st outcome).2.waiters ∧
        (∀ r : Response, r.id = st.nextId →
          Connection.handleResponse (Connection.sendModel st outcome).2.waiters r =
            ((Connection.sendModel st outcome).2.waiters, false))) ∧
      (outcome = WaitOutcome.dropped →
        (Connection.sendModel st outcome).1 = SendResult.errNoResponse) ∧
      (Connection.sendModel st outcome).2.outQueue = st.outQueue ++ [st.nextId] ∧
      (Connection.sendModel st outcome).2.nextId = st.nextId + 1) ∧
    (∀ (ws : List Nat) (r : Response),
      (Connection.handleResponse ws r).2 = true ↔ r.id ∈ ws) ∧
    sendTimeoutMillis = 30000 := by
  refine ⟨?_, ?_, ?_, rfl⟩
  · intro h
    simp [Connection.sendModel, h]
  · intro h
    refine ⟨?_, ?_, ?_, ?_, ?_⟩
    · intro r hr
      subst hr
      simp [Connection.sendModel, h]
    · intro hr
      subst hr
      refine ⟨by simp [Connection.sendModel, h], ?_, ?_⟩
      · simp [Connection.sendModel, h, List.mem_filter]
      · intro r hrid
        have hmem : ¬ r.id ∈ (Connection.sendModel st WaitOutcome.timedOut).2.waiters := by
          simp [Connection.sendModel, h, List.mem_filter, hrid]
        simp [Connection.handleResponse, hmem]
    · intro hr
      subst hr
      simp [Connection.sendModel, h]
    · cases outcome <;> simp [Connection.sendModel, h]
    · cases outcome <;> simp [Connection.sendModel, h]
  · intro ws r
    by_cases hmem : r.id ∈ ws
    · simp [Connection.handleResponse, hmem]
    · simp [Connection.handleResponse, hmem]

/-- C2 witness: a timed-out send (flag clear) reports the timeout error with the
allocated id removed from the waiters. -/
theorem c2_witness :
    (Connection.sendModel
        { nextId := 5, waiters := [3], outQueue := [3], disconnecting := false }
        WaitOutcome.timedOut).1 = SendResult.errTimedOut :=
  (((c2_theorem
      { nextId := 5, waiters := [3], outQueue := [3], disconnecting := false }
      WaitOutcome.timedOut).2.1 rfl).2.1 rfl).1

/-- Unfolding lemma: one step of the navigation waiter loop. -/
theorem navLoop_cons_eq (frameId : String) (t : Nat) (ev : NavEvent)
    (rest : List NavEvent) :
    navLoop frameId t (ev :: rest) =
      if navFails ev = true then NavOutcome.navigationFailed
      else if navMatches frameId t ev = true then NavOutcome.success
      else navLoop frameId t rest := by
  cases ev with
  | loadingFailed rt =>
    by_cases h : (rt == "Document") = true
    · simp [navLoop, navFails, navMatches, h]
    · simp [navLoop, navFails, navMatches, h]
  | other => simp [navLoop, navFails, navMatches]
  | lifecycle fid name =>
    simp [navLoop, navFails, navMatches]
    by_cases hA : fid = frameId ∧ name ∈ lifecycleEventOrder.drop t
    · by_cases hB : t ≤ List.findIdx (fun e => e == name) lifecycleEventOrder
      · rw [if_pos hA, if_pos hB, if_pos ⟨hA, hB⟩]
      · rw [if_pos hA, if_neg hB, if_neg (fun hc => hB hc.2)]
    · rw [if_neg hA, if_neg (fun hc => hA hc.1)]

/-- The navigation waiter succeeds exactly on streams that contain a matching
lifecycle event not preceded by any Document loading failure. -/
theorem navLoop_success_iff (frameId : String) (t : Nat) (evs : List NavEvent) :
    navLoop frameId t evs = NavOutcome.success ↔
      ∃ pre ev post, evs = pre ++ ev :: post ∧ navMatches frameId t ev = true ∧
        ∀ e ∈ pre, navFails e = false := by
  induction evs with
  | nil =>
    constructor
    · intro h; simp [navLoop] at h
    · rintro ⟨pre, ev, post, heq, -, -⟩
      exact absurd heq (by cases pre <;> simp)
  | cons ev rest ih =>
    rw [navLoop_cons_eq]
    by_cases hf : navFails ev = true
    · rw [if_pos hf]
      constructor
      · intro h; simp at h
      · rintro ⟨pre, e, post, heq, hm, hpre⟩
        exfalso
        cases pre with
        | nil =>
          simp at heq
          obtain ⟨h1, -⟩ := heq
          subst h1
          cases ev <;> simp [navMatches, navFails] at hm hf
        | cons p pre2 =>
          simp at heq
          obtain ⟨h1, -⟩ := heq
          subst h1
          have h2 := hpre ev (by simp)
          rw [h2] at hf
          exact absurd hf (by simp)
    · have hf2 : navFails ev = false := by simpa using hf
      rw [if_neg hf]
      by_cases hm : navMatches frameId t ev = true
      · rw [if_pos hm]
        constructor
        · intro _
          exact ⟨[], ev, rest, rfl, hm, by simp⟩
        · intro _; rfl
      · rw [if_neg hm, ih]
        constructor
        · rintro ⟨pre, e, post, heq, hme, hpre⟩
          refine ⟨ev :: pre, e, post, by rw [heq, List.cons_append], hme, ?_⟩
          intro x hx
          rcases List.mem_cons.mp hx with hx | hx
          · subst hx; exact hf2
          · exact hpre x hx
        · rintro ⟨pre, e, post, heq, hme, hpre⟩
          cases pre with
          | nil =>
            simp at heq
            obtain ⟨h1, h2⟩ := heq
            subst h1
            exact absurd hme hm
          | cons p pre2 =>
            simp at heq
            obtain ⟨h1, h2⟩ := heq
            subst h1
            exact ⟨pre2, e, post, h2, hme, fun x hx => hpre x (List.mem_cons_of_mem _ hx)⟩

/-- A Document loading failure that arrives before any deciding event fails the
navigation wait. -/
theorem navLoop_append_fails (frameId : String) (t : Nat) (pre : List NavEvent)
    (ev : NavEvent) (post : List NavEvent)
    (hpre : ∀ e ∈ pre, navFails e = false ∧ navMatches frameId t e = false)
    (hev : navFails ev = true) :
    navLoop frameId t (pre ++ ev :: post) = NavOutcome.navigationFailed := by
  induction pre with
  | nil => rw [List.nil_append, navLoop_cons_eq, if_pos hev]
  | cons p pre2 ih =>
    rw [List.cons_append, navLoop_cons_eq]
    obtain ⟨h1, h2⟩ := hpre p (by simp)
    rw [if_neg (by simp [h1]), if_neg (by simp [h2])]
    exact ih (fun e he => hpre e (by simp [he]))

/-- In a duplicate-free list, a member of the suffix from position t has its first
occurrence at or after t. -/
theorem le_findIdx_of_mem_drop :
    ∀ (l : List String) (t : Nat) (n : String), l.Nodup → n ∈ l.drop t →
      t ≤ l.findIdx (fun e => e == n) := by
  intro l
  induction l with
  | nil => intro t n _ h; simp at h
  | cons x xs ih =>
    intro t n hnd hmem
    cases t with
    | zero => exact Nat.zero_le _
    | succ t2 =>
      rw [List.drop_succ_cons] at hmem
      have hx : x ∉ xs := (List.nodup_cons.mp hnd).1
      have hnxs : n ∈ xs := List.drop_subset _ _ hmem
      have hne : (x == n) = false := by
        rw [beq_eq_false_iff_ne]
        intro he; subst he; exact hx hnxs
      rw [List.findIdx_cons, hne]
      simp only [cond_false]
      exact Nat.succ_le_succ (ih t2 n (List.nodup_cons.mp hnd).2 hmem)

/-- The waiter's match condition coincides with "a lifecycle event for this frame
naming an event at or after the target position in the canonical order". -/
theorem navMatches_lifecycle_iff (frameId : String) (t : Nat) (fid name : String) :
    navMatches frameId t (NavEvent.lifecycle fid name) = true ↔
      (fid = frameId ∧ name ∈ lifecycleEventOrder.drop t) := by
  constructor
  · intro h
    simp only [navMatches, Bool.and_eq_true, beq_iff_eq, decide_eq_true_eq] at h
    obtain ⟨⟨h1, h2⟩, -⟩ := h
    exact ⟨h1, by simpa using h2⟩
  · rintro ⟨h1, h2⟩
    simp only [navMatches, Bool.and_eq_true, beq_iff_eq, decide_eq_true_eq]
    refine ⟨⟨h1, by simpa using h2⟩, ?_⟩
    exact le_findIdx_of_mem_drop _ _ _ (by decide) h2

/-- C6: wait_for_navigation rejects any waitUntil outside
{init, load, domcontentloaded, networkidle0, networkidle2} with an
invalid-argument error; for an accepted option it runs the waiter loop at the
mapped event's position in the canonical order; the loop succeeds exactly when a
Page.lifecycleEvent for this frame's frameId names an event at or after the
target position and no Document Network.loadingFailed precedes it; a Document
loadingFailed arriving before any deciding event fails the navigation; and the
failing events are exactly the Document loading failures. -/
theorem c6_theorem :
    (∀ fid w evs,
      w ∉ ["init", "load", "domcontentloaded", "networkidle0", "networkidle2"] →
      FrameInner.waitForNavigationModel fid (some w) evs = NavOutcome.invalidArgument) ∧
    (∀ fid w target evs, lifecycleEventMap w = some target →
      FrameInner.waitForNavigationModel fid (some w) evs =
        navLoop fid (lifecycleEventOrder.findIdx (fun e => e == target)) evs) ∧
    (∀ fid t evs, navLoop fid t evs = NavOutcome.success ↔
      ∃ pre ev post, evs = pre ++ ev :: post ∧ navMatches fid t ev = true ∧
        ∀ e ∈ pre, navFails e = false) ∧
    (∀ fid t fid2 name, navMatches fid t (NavEvent.lifecycle fid2 name) = true ↔
      (fid2 = fid ∧ name ∈ lifecycleEventOrder.drop t)) ∧
    (∀ fid t pre ev post,
      (∀ e ∈ pre, navFails e = false ∧ navMatches fid t e = false) →
      navFails ev = true →
      navLoop fid t (pre ++ ev :: post) = NavOutcome.navigationFailed) ∧
    (∀ ev, navFails ev = true ↔ ev = NavEvent.loadingFailed "Document") := by
  refine ⟨?_, ?_, navLoop_success_iff, navMatches_lifecycle_iff,
    fun fid t pre ev post hpre hev => navLoop_append_fails fid t pre ev post hpre hev, ?_⟩
  · intro fid w evs hw
    simp only [List.mem_cons, List.not_mem_nil, or_false, not_or] at hw
    obtain ⟨h1, h2, h3, h4, h5⟩ := hw
    simp [FrameInner.waitForNavigationModel, lifecycleEventMap, h1, h2, h3, h4, h5]
  · intro fid w target evs h
    have hcont : lifecycleEventOrder.contains target = true := by
      unfold lifecycleEventMap at h
      split_ifs at h <;> first
        | (simp only [Option.some.injEq] at h; subst h; decide)
        | exact absurd h (by simp)
    simp [FrameInner.waitForNavigationModel, h, hcont]
    intro hmem
    exact absurd (by simpa using hcont) hmem
  · intro ev
    cases ev with
    | loadingFailed rt => simp [navFails]
    | lifecycle fid name => simp [navFails]
    | other => simp [navFails]

/-- C6 witness: an unknown waitUntil is rejected, and a networkIdle lifecycle
event for the frame satisfies a wait whose target index is 1 (load). -/
theorem c6_witness :
    FrameInner.waitForNavigationModel "F1" (some "networkidle3") [] =
      NavOutcome.invalidArgument ∧
    navLoop "F1" 1 [NavEvent.lifecycle "F1" "networkIdle"] = NavOutcome.success :=
  ⟨c6_theorem.1 "F1" "networkidle3" [] (by decide),
   (c6_theorem.2.2.1 "F1" 1 [NavEvent.lifecycle "F1" "networkIdle"]).2
     ⟨[], NavEvent.lifecycle "F1" "networkIdle", [], rfl, by decide, by simp⟩⟩

/-- Helper: a successful findSome? comes from some list element. -/
theorem findSome?_mem {α β : Type} (l : List α) (g : α → Option β) (b : β)
    (h : l.findSome? g = some b) : ∃ a, a ∈ l ∧ g a = some b := by
  induction l with
  | nil => simp [List.findSome?] at h
  | cons x xs ih =>
    rw [List.findSome?] at h
    cases hx : g x with
    | some r =>
      rw [hx] at h
      simp only [] at h
      exact ⟨x, by simp, by rw [hx]; exact h⟩
    | none =>
      rw [hx] at h
      simp only [] at h
      obtain ⟨a, ha, hga⟩ := ih h
      exact ⟨a, by simp [ha], hga⟩

/-- Every node returned by find_by_text is a non-script, non-style element with a
direct child text value that equals or contains the literal. -/
theorem findByText_safe :
    ∀ (fuel : Nat) (text : String) (nd : DomNode),
      Option.all (fun m => notScriptStyle m && hasMatchingChild text m)
        (findByText fuel text nd) = true := by
  intro fuel
  induction fuel with
  | zero => intro text nd; rw [findByText]; rfl
  | succ f ih =>
    intro text nd
    rw [findByText]
    cases hc : nd.children.findSome? (fun child =>
        if (child.nodeValue == text || strContains child.nodeValue text)
            && !(nd.localName == "script") && !(nd.localName == "style") then
          some nd
        else
          findByText f text child) with
    | some r =>
      simp only [hc, Option.all_some]
      obtain ⟨child, hmem, hchild⟩ := findSome?_mem _ _ _ hc
      by_cases hcond : ((child.nodeValue == text || strContains child.nodeValue text)
          && !(nd.localName == "script") && !(nd.localName == "style")) = true
      · rw [if_pos hcond] at hchild
        obtain ⟨⟨hmatch, hscript⟩, hstyle⟩ := by
          simpa only [Bool.and_eq_true] using hcond
        have hr : r = nd := by
          simpa using hchild.symm
        subst hr
        simp only [Bool.and_eq_true, notScriptStyle, hasMatchingChild]
        exact ⟨⟨hscript, hstyle⟩, List.any_eq_true.mpr ⟨child, hmem, hmatch⟩⟩
      · rw [if_neg hcond] at hchild
        have := ih text child
        rw [hchild] at this
        simpa only [Option.all_some] using this
    | none =>
      simp only [hc]
      cases hp : nd.pseudoElements.findSome? (fun p => findByText f text p) with
      | some r =>
        simp only [hp, Option.all_some]
        obtain ⟨p, hmem, hpr⟩ := findSome?_mem _ _ _ hp
        have := ih text p
        rw [hpr] at this
        simpa only [Option.all_some] using this
      | none =>
        simp only [hp]
        cases hs : nd.shadowRoots.findSome? (fun s => findByText f text s) with
        | some r =>
          simp only [Option.all_some]
          obtain ⟨s, hmem, hsr⟩ := findSome?_mem _ _ _ hs
          have := ih text s
          rw [hsr] at this
          simpa only [Option.all_some] using this
        | none => rfl

/-- Every node collected by find_by_text_all is a non-script, non-style element
with a direct child text value that equals or contains the literal. -/
theorem findByTextAll_safe :
    ∀ (fuel : Nat) (text : String) (nd : DomNode),
      (findByTextAll fuel text nd).all
        (fun m => notScriptStyle m && hasMatchingChild text m) = true := by
  intro fuel
  induction fuel with
  | zero => intro text nd; rw [findByTextAll]; rfl
  | succ f ih =>
    intro text nd
    have ihm : ∀ (t : String) (n m : DomNode), m ∈ findByTextAll f t n →
        (notScriptStyle m && hasMatchingChild t m) = true :=
      fun t n m hm => List.all_eq_true.mp (ih t n) m hm
    rw [findByTextAll, List.all_eq_true]
    intro m hm
    rcases List.mem_append.mp hm with hm1 | hm1
    · rcases List.mem_append.mp hm1 with hm2 | hm2
      · obtain ⟨child, hcmem, hmm⟩ := List.mem_flatMap.mp hm2
        rcases List.mem_append.mp hmm with hm3 | hm3
        · by_cases hcond : ((child.nodeValue == text || strContains child.nodeValue text)
              && !(nd.localName == "script") && !(nd.localName == "style")) = true
          · rw [if_pos hcond] at hm3
            obtain ⟨⟨hmatch, hscript⟩, hstyle⟩ := by
              simpa only [Bool.and_eq_true] using hcond
            have hmn : m = nd := by simpa using hm3
            subst hmn
            simp only [Bool.and_eq_true, notScriptStyle, hasMatchingChild]
            exact ⟨⟨hscript, hstyle⟩, List.any_eq_true.mpr ⟨child, hcmem, hmatch⟩⟩
          · rw [if_neg hcond] at hm3
            simp at hm3
        · exact ihm text child m hm3
      · obtain ⟨p, hpmem, hmp⟩ := List.mem_flatMap.mp hm2
        exact ihm text p m hmp
    · obtain ⟨s, hsmem, hms⟩ := List.mem_flatMap.mp hm1
      exact ihm text s m hms

/-- The processed-frame log of the text search never repeats a frame id or a
target id, and never contains an id that was already in the processed sets. -/
theorem textSearchLoop_visited :
    ∀ (f dfuel : Nat) (text : String) (all : Bool) (stack : List FrameTree)
      (pt pf : List String) (nodes : List (Nat × String)),
      (((textSearchLoop f dfuel text all stack pt pf nodes).2.map Prod.fst).Nodup ∧
       ((textSearchLoop f dfuel text all stack pt pf nodes).2.map Prod.snd).Nodup) ∧
      (∀ v ∈ (textSearchLoop f dfuel text all stack pt pf nodes).2,
        v.1 ∉ pf ∧ v.2 ∉ pt) := by
  intro f
  induction f with
  | zero =>
    intro dfuel text all stack pt pf nodes
    rw [textSearchLoop]
    simp
  | succ f ih =>
    intro dfuel text all stack pt pf nodes
    cases stack with
    | nil =>
      rw [textSearchLoop]
      simp
    | cons cur rest =>
      rw [textSearchLoop]
      by_cases h1 : pt.contains cur.targetId = true
      · rw [if_pos h1]
        exact ih dfuel text all rest pt pf nodes
      · rw [if_neg h1]
        by_cases h2 : pf.contains cur.frameId = true
        · rw [if_pos h2]
          exact ih dfuel text all rest pt pf nodes
        · rw [if_neg h2]
          have hfnotin : cur.frameId ∉ pf := by simpa using h2
          have htnotin : cur.targetId ∉ pt := by simpa using h1
          by_cases hall : all = true
          · rw [if_pos hall]
            simp only []
            obtain ⟨⟨nd1, nd2⟩, hdisj⟩ :=
              ih dfuel text all (cur.childFrames.reverse ++ rest)
                (cur.targetId :: pt) (cur.frameId :: pf)
                (nodes ++ (findByTextAll dfuel text cur.doc).map
                  (fun m => (m.backendNodeId, cur.frameId)))
            refine ⟨⟨?_, ?_⟩, ?_⟩
            · rw [List.map_cons, List.nodup_cons]
              refine ⟨?_, nd1⟩
              intro hmem
              obtain ⟨v, hv, hveq⟩ := List.mem_map.mp hmem
              exact ((hdisj v hv).1) (by rw [hveq]; exact List.mem_cons_self _ _)
            · rw [List.map_cons, List.nodup_cons]
              refine ⟨?_, nd2⟩
              intro hmem
              obtain ⟨v, hv, hveq⟩ := List.mem_map.mp hmem
              exact ((hdisj v hv).2) (by rw [hveq]; exact List.mem_cons_self _ _)
            · intro v hv
              rcases List.mem_cons.mp hv with hv | hv
              · subst hv
                exact ⟨hfnotin, htnotin⟩
              · have := hdisj v hv
                exact ⟨fun hx => this.1 (List.mem_cons_of_mem _ hx),
                       fun hx => this.2 (List.mem_cons_of_mem _ hx)⟩
          · rw [if_neg hall]
            cases hfind : findByText dfuel text cur.doc with
            | some m =>
              simp only [hfind]
              refine ⟨⟨by simp, by simp⟩, ?_⟩
              intro v hv
              rcases List.mem_cons.mp hv with hv | hv
              · subst hv
                exact ⟨hfnotin, htnotin⟩
              · simp at hv
            | none =>
              simp only [hfind]
              obtain ⟨⟨nd1, nd2⟩, hdisj⟩ :=
                ih dfuel text all (cur.childFrames.reverse ++ rest)
                  (cur.targetId :: pt) (cur.frameId :: pf) nodes
              refine ⟨⟨?_, ?_⟩, ?_⟩
              · rw [List.map_cons, List.nodup_cons]
                refine ⟨?_, nd1⟩
                intro hmem
                obtain ⟨v, hv, hveq⟩ := List.mem_map.mp hmem
                exact ((hdisj v hv).1) (by rw [hveq]; exact List.mem_cons_self _ _)
              · rw [List.map_cons, List.nodup_cons]
                refine ⟨?_, nd2⟩
                intro hmem
                obtain ⟨v, hv, hveq⟩ := List.mem_map.mp hmem
                exact ((hdisj v hv).2) (by rw [hveq]; exact List.mem_cons_self _ _)
              · intro v hv
                rcases List.mem_cons.mp hv with hv | hv
                · subst hv
                  exact ⟨hfnotin, htnotin⟩
                · have := hdisj v hv
                  exact ⟨fun hx => this.1 (List.mem_cons_of_mem _ hx),
                         fun hx => this.2 (List.mem_cons_of_mem _ hx)⟩

/-- The single-result text search returns at most one match beyond what was
already accumulated. -/
theorem textSearchLoop_single_len :
    ∀ (f dfuel : Nat) (text : String) (stack : List FrameTree)
      (pt pf : List String) (nodes : List (Nat × String)),
      (textSearchLoop f dfuel text false stack pt pf nodes).1.length ≤
        nodes.length + 1 := by
  intro f
  induction f with
  | zero =>
    intro dfuel text stack pt pf nodes
    rw [textSearchLoop]
    simp
  | succ f ih =>
    intro dfuel text stack pt pf nodes
    cases stack with
    | nil =>
      rw [textSearchLoop]
      simp
    | cons cur rest =>
      rw [textSearchLoop]
      by_cases h1 : pt.contains cur.targetId = true
      · rw [if_pos h1]
        exact ih dfuel text rest pt pf nodes
      · rw [if_neg h1]
        by_cases h2 : pf.contains cur.frameId = true
        · rw [if_pos h2]
          exact ih dfuel text rest pt pf nodes
        · rw [if_neg h2]
          rw [if_neg (by simp : ¬ (false = true))]
          cases hfind : findByText dfuel text cur.doc with
          | some m =>
            simp only [hfind]
            simp
          | none =>
            simp only [hfind]
            exact ih dfuel text (cur.childFrames.reverse ++ rest)
              (cur.targetId :: pt) (cur.frameId :: pf) nodes

/-- The frame whose search starts the traversal is the first frame processed. -/
theorem findByTextEverywhere_head :
    ∀ (fuel dfuel : Nat) (text : String) (all : Bool) (root : FrameTree),
      (findByTextEverywhere (fuel + 1) dfuel text all root).2.head? =
        some (root.frameId, root.targetId) := by
  intro fuel dfuel text all root
  rw [findByTextEverywhere, textSearchLoop]
  rw [if_neg (by simp : ¬ (List.contains [] root.targetId = true))]
  rw [if_neg (by simp : ¬ (List.contains [] root.frameId = true))]
  by_cases hall : all = true
  · rw [if_pos hall]
    rfl
  · rw [if_neg hall]
    cases hfind : findByText dfuel text root.doc with
    | some m => simp only [hfind]; rfl
    | none => simp only [hfind]; rfl

/-- C7 counterexample: on a frame tree of depth two (root r with children a and b,
grandchildren c under a and d under b) the search processes frames in the order
r, b, d, a, c — frames_to_process is a stack (Vec push/pop), so the traversal is
depth-first: the depth-2 frame d is processed before the depth-1 frame a, hence
the processing order is not breadth-first (not monotone in frame depth). -/
theorem c7_counterexample :
    (findByTextEverywhere 10 5 "no-such-text" false demoFrameTree).2 =
      [("r", "tr"), ("b", "tb"), ("d", "td"), ("a", "ta"), ("c", "tc")] ∧
    frameDepth 10 demoFrameTree "d" = 2 ∧
    frameDepth 10 demoFrameTree "a" = 1 ∧
    ¬ List.Pairwise
        (fun x y => frameDepth 10 demoFrameTree x.1 ≤ frameDepth 10 demoFrameTree y.1)
        (findByTextEverywhere 10 5 "no-such-text" false demoFrameTree).2 := by
  refine ⟨by decide, by decide, by decide, ?_⟩
  intro h
  rw [(by decide :
    (findByTextEverywhere 10 5 "no-such-text" false demoFrameTree).2 =
      [("r", "tr"), ("b", "tb"), ("d", "td"), ("a", "ta"), ("c", "tc")])] at h
  have h1 := (List.pairwise_cons.mp h).2
  have h2 := (List.pairwise_cons.mp h1).2
  have h3 := (List.pairwise_cons.mp h2).1 ("a", "ta") (by simp)
  revert h3
  decide

/-- C7 (amended): the text search walks the full document of the current frame
first (the start frame is the first processed), then iterates child frames in
stack (depth-first, last-pushed-first) order, processing each frame at most once
— the processed frame ids and target ids are both duplicate-free; every match is
a non-script, non-style element with a direct child text value equal to or
containing the literal (for both the single and the all variant); and the
single-result variant returns at most one match, terminating at the first one
found. -/
theorem c7_theorem :
    (∀ fuel dfuel text all root,
      (((findByTextEverywhere fuel dfuel text all root).2.map Prod.fst).Nodup ∧
       ((findByTextEverywhere fuel dfuel text all root).2.map Prod.snd).Nodup)) ∧
    (∀ fuel text nd,
      Option.all (fun m => notScriptStyle m && hasMatchingChild text m)
        (findByText fuel text nd) = true) ∧
    (∀ fuel text nd,
      (findByTextAll fuel text nd).all
        (fun m => notScriptStyle m && hasMatchingChild text m) = true) ∧
    (∀ fuel dfuel text root,
      (findByTextEverywhere fuel dfuel text false root).1.length ≤ 1) ∧
    (∀ fuel dfuel text all root,
      (findByTextEverywhere (fuel + 1) dfuel text all root).2.head? =
        some (root.frameId, root.targetId)) := by
  refine ⟨?_, findByText_safe, findByTextAll_safe, ?_, findByTextEverywhere_head⟩
  · intro fuel dfuel text all root
    exact (textSearchLoop_visited fuel dfuel text all [root] [] [] []).1
  · intro fuel dfuel text root
    simpa using textSearchLoop_single_len fuel dfuel text [root] [] [] []
